import Mathlib

set_option maxRecDepth 100000

/-!
Shallow embedding of the Lifeplus medex scraper
(`src/langchain_medical_scraper.py` and `src/scraper.py`).

Python strings are embedded as `List Char`; network and browser effects
are parameterized by explicit outcome oracles, so every function of the
source becomes a total Lean function of its inputs and of the outcome of
each external call it performs. Exceptions are modelled with `Except`:
a try block is a value of `Except PyExc α`, and the source's `except`
handlers are matches on the `error` constructors.
-/

/-- Python strings, embedded as their character lists. -/
abbrev Str := List Char

/-- Character-list view of a Lean string literal. -/
def chars (s : String) : Str := s.data

/-- Python `str.lower()` (used on response bodies, line 438). -/
def pyLower (s : Str) : Str := s.map Char.toLower

/-- Python substring test `sub in s`. -/
def strIn (sub s : Str) : Bool := decide (sub <:+: s)

/-- A `requests` HTTP response: status code and body text
(`langchain_medical_scraper.py`, lines 432-439). -/
structure HttpResponse where
  status_code : Nat
  text : Str

/-- The Python exception classes relevant to the scraper's handlers:
`requests.exceptions.RequestException`, Selenium's `TimeoutException` and
`WebDriverException`, and any other `Exception`. Every constructor carries
its `str(e)` message. -/
inductive PyExc where
  | requestException (msg : Str)
  | timeoutException (msg : Str)
  | webDriverException (msg : Str)
  | otherException (msg : Str)

/-- String rendering `str(e)` of an exception. -/
def excMessage : PyExc → Str
  | .requestException m => m
  | .timeoutException m => m
  | .webDriverException m => m
  | .otherException m => m

/-- State of a `BrowserManager`: the stored Selenium driver handle
(`self.driver`, `None` until initialized) and the number of live browser
sessions opened and not yet quit. -/
structure BrowserState where
  driver : Option Nat
  live : Nat
deriving DecidableEq

/-- Outcome of the try block of `initialize_browser` (lines 127-163):
either `webdriver.Chrome` succeeds and all setup steps complete, or an
exception is raised before the driver is created, or an exception is
raised by a setup step after `self.driver` was already assigned
(line 144). -/
inductive InitOutcome where
  | okInit (s : Nat)
  | failBeforeDriver
  | failAfterDriver (s : Nat)
deriving DecidableEq

/-- `BrowserManager.initialize_browser` (lines 127-163): creates a Chrome
driver inside a try block and returns `True`; any exception is caught and
`False` is returned; if the exception occurred after `webdriver.Chrome`
succeeded, the driver handle is already stored in `self.driver`. -/
def init_browser (st : BrowserState) (ev : InitOutcome) : BrowserState × Bool :=
  match ev with
  | .okInit s => (⟨some s, st.live + 1⟩, true)
  | .failBeforeDriver => (st, false)
  | .failAfterDriver s => (⟨some s, st.live + 1⟩, false)

/-- `BrowserManager.close_browser` (lines 165-172): if a driver is stored,
`driver.quit()` is called (errors caught and logged); the `self.driver`
field itself is never reset to `None`. -/
def close_browser (st : BrowserState) : BrowserState :=
  match st.driver with
  | none => st
  | some _ => ⟨st.driver, st.live - 1⟩

/-- Outcome of the navigate / detect / solve / scroll / `page_source`
try block of `fetch_page_with_browser` (lines 181-213): either a final
page source is produced, or some step raises. -/
inductive BrowserStep where
  | pageSource (content : Str)
  | raiseExc (e : PyExc)

/-- The try block of `fetch_page_with_browser` as an `Except` value. -/
def browser_try_body (step : BrowserStep) : Except PyExc Str :=
  match step with
  | .pageSource c => .ok c
  | .raiseExc e => .error e

/-- The dict `{"url": ..., "content": ...}` returned by the fetch
functions. -/
structure PageResult where
  url : Str
  content : Str
deriving DecidableEq

/-- Try block plus handlers of `fetch_page_with_browser` (lines 181-220):
`TimeoutException`, `WebDriverException` and generic `Exception` are each
caught and turned into a diagnostic `PageResult`; the browser state is not
touched by any handler (no teardown on the error paths). -/
def browser_fetch_result (st : BrowserState) (url : Str) (step : BrowserStep) :
    BrowserState × PageResult :=
  match browser_try_body step with
  | .ok content => (st, ⟨url, content⟩)
  | .error (.timeoutException _) => (st, ⟨url, chars "Timeout waiting for page to load"⟩)
  | .error (.webDriverException m) => (st, ⟨url, chars "Browser error: " ++ m⟩)
  | .error (.requestException m) => (st, ⟨url, chars "Error fetching " ++ url ++ chars ": " ++ m⟩)
  | .error (.otherException m) => (st, ⟨url, chars "Error fetching " ++ url ++ chars ": " ++ m⟩)

/-- `BrowserManager.fetch_page_with_browser` (lines 174-220): when no
driver is stored, `initialize_browser` runs first and a failed
initialization short-circuits with a diagnostic result; otherwise the
existing driver is reused. -/
def fetch_page_with_browser (st : BrowserState) (url : Str) (ini : InitOutcome)
    (step : BrowserStep) : BrowserState × PageResult :=
  match st.driver with
  | none =>
      match init_browser st ini with
      | (st1, false) => (st1, ⟨url, chars "Failed to initialize browser"⟩)
      | (st1, true) => browser_fetch_result st1 url step
  | some _ => browser_fetch_result st url step

/-- The anti-bot keyword set of `fetch_webpage` (line 437). -/
def antiBotIndicators : List Str :=
  [chars "captcha", chars "security check", chars "bot detection", chars "challenge"]

/-- Line 438: `any(ind in response.text.lower() for ind in indicators)`. -/
def containsAntiBotIndicator (body : Str) : Bool :=
  antiBotIndicators.any (fun ind => strIn ind (pyLower body))

/-- Lines 435-439: the light (requests) path returns the body directly iff
the status is 200, the body is longer than 500 characters, and no anti-bot
keyword occurs in the lowercased body. -/
def lightPathSuccess (resp : HttpResponse) : Bool :=
  resp.status_code == 200 && decide (500 < resp.text.length) &&
    !containsAntiBotIndicator resp.text

/-- Outcome of the `requests.get` call (line 432): a response, or a raised
exception. -/
inductive FetchOutcome where
  | ok (resp : HttpResponse)
  | raise (e : PyExc)

/-- The try block of `fetch_webpage` (lines 419-443): light path first; on
HTTP failure or an anti-bot indicator it falls through to
`fetch_page_with_browser` (line 443), which is itself total. -/
def fetch_webpage_try (st : BrowserState) (url : Str) (out : FetchOutcome)
    (ini : InitOutcome) (step : BrowserStep) : Except PyExc (BrowserState × PageResult) :=
  match out with
  | .ok resp =>
      if lightPathSuccess resp then .ok (st, ⟨url, resp.text⟩)
      else .ok (fetch_page_with_browser st url ini step)
  | .raise e => .error e

/-- `fetch_webpage` (lines 417-451) with its two handlers: a
`RequestException` falls back to browser automation (line 448); any other
exception becomes an error `PageResult` (line 451). The `Except` result
type records what escapes the function's boundary. -/
def fetch_webpage (st : BrowserState) (url : Str) (out : FetchOutcome)
    (ini : InitOutcome) (step : BrowserStep) : Except PyExc (BrowserState × PageResult) :=
  match fetch_webpage_try st url out ini step with
  | .ok r => .ok r
  | .error (.requestException _) => .ok (fetch_page_with_browser st url ini step)
  | .error e => .ok (st, ⟨url, chars "Error fetching " ++ url ++ chars ": " ++ excMessage e⟩)

/-- The strategies `fetch_webpage` attempts for a given requests outcome:
the light requests path always runs; browser automation (the render
strategy) runs exactly when the light path did not return a clean body
(lines 441-443) or the requests call raised a `RequestException`
(line 448). -/
inductive Strategy where
  | LIGHT
  | RENDER
deriving DecidableEq

/-- Strategy trace of one `fetch_webpage` call, mirroring its branch
structure. -/
def fetch_webpage_strategies (out : FetchOutcome) : List Strategy :=
  match out with
  | .ok resp => if lightPathSuccess resp then [.LIGHT] else [.LIGHT, .RENDER]
  | .raise (.requestException _) => [.LIGHT, .RENDER]
  | .raise _ => [.LIGHT]

/-- The 2Captcha client held by a configured `CaptchaSolver`. -/
structure TwoCaptchaClient where
  api_key : Str
deriving DecidableEq

/-- `CaptchaSolver` (lines 59-69): `self.solver` is a `TwoCaptcha` client
when an API key was supplied, `None` otherwise. -/
structure CaptchaSolver where
  solver : Option TwoCaptchaClient

/-- Python truthiness of an optional string (`if image_url:` etc.). -/
def truthy : Option Str → Bool
  | none => false
  | some s => !s.isEmpty

/-- Outcome of one call to the 2Captcha provider: either the call raises,
or it returns a result dict whose optional `code` field is read by
`result.get` in the source. -/
abbrev ProviderCall := Except Str (Option Str)

/-- `CaptchaSolver.solve_image_captcha` (lines 71-88): `None` without a
configured solver; otherwise the provider is called for a URL or for
image data, with any exception caught and turned into `None`; with
neither argument the method returns `None` without calling the
provider. -/
def solve_image_captcha (cs : CaptchaSolver) (image_data image_url : Option Str)
    (call : ProviderCall) : Option Str :=
  match cs.solver with
  | none => none
  | some _ =>
      if truthy image_url then
        match call with
        | .ok code => code
        | .error _ => none
      else if truthy image_data then
        match call with
        | .ok code => code
        | .error _ => none
      else none

/-- `CaptchaSolver.solve_recaptcha_v2` (lines 90-103). -/
def solve_recaptcha_v2 (cs : CaptchaSolver) (site_key page_url : Str)
    (call : ProviderCall) : Option Str :=
  match cs.solver with
  | none => none
  | some _ =>
      match call with
      | .ok code => code
      | .error _ => none

/-- `CaptchaSolver.solve_hcaptcha` (lines 105-118). -/
def solve_hcaptcha (cs : CaptchaSolver) (site_key page_url : Str)
    (call : ProviderCall) : Option Str :=
  match cs.solver with
  | none => none
  | some _ =>
      match call with
      | .ok code => code
      | .error _ => none

/-- Element counts the driver reports for each selector queried by
`_detect_captcha_type` (lines 222-259), in source order: `.g-recaptcha`,
`.h-captcha`, the three image-captcha CSS selectors, and the four
security-interstitial XPath indicators. -/
structure PageSnapshot where
  gRecaptchaCount : Nat
  hCaptchaCount : Nat
  imgIdCaptchaCount : Nat
  imgSrcCaptchaCount : Nat
  inputIdCaptchaCount : Nat
  securityCheckDivCount : Nat
  securityHeadingCount : Nat
  securityTitleCount : Nat
  checkingBrowserTextCount : Nat
deriving DecidableEq

/-- The challenge taxonomy returned by `_detect_captcha_type`. -/
inductive CaptchaType where
  | recaptcha_v2
  | hcaptcha
  | image_captcha
  | security_challenge
deriving DecidableEq

/-- `_detect_captcha_type` (lines 222-259) with the page snapshot threaded
through as explicit state: every step is a read-only `find_elements`
query, so each branch returns the snapshot unchanged. The checks run in
source order and the first positive count wins. -/
def detect_captcha_type_state (p : PageSnapshot) : Option CaptchaType × PageSnapshot :=
  if 0 < p.gRecaptchaCount then (some .recaptcha_v2, p)
  else if 0 < p.hCaptchaCount then (some .hcaptcha, p)
  else if 0 < p.imgIdCaptchaCount then (some .image_captcha, p)
  else if 0 < p.imgSrcCaptchaCount then (some .image_captcha, p)
  else if 0 < p.inputIdCaptchaCount then (some .image_captcha, p)
  else if 0 < p.securityCheckDivCount then (some .security_challenge, p)
  else if 0 < p.securityHeadingCount then (some .security_challenge, p)
  else if 0 < p.securityTitleCount then (some .security_challenge, p)
  else if 0 < p.checkingBrowserTextCount then (some .security_challenge, p)
  else (none, p)

/-- The classification returned by `_detect_captcha_type`. -/
def detect_captcha_type (p : PageSnapshot) : Option CaptchaType :=
  (detect_captcha_type_state p).1

/-- A record produced by `scrape_medicine_details` in `src/scraper.py`
(lines 163-296): a dict of field names to extracted text. -/
abbrev MedData := List (Str × Str)

/-- Python dict assignment `d[k] = v` on an association list: replace the
existing entry in place, else append. -/
def dictInsert (d : List (Str × MedData)) (k : Str) (v : MedData) :
    List (Str × MedData) :=
  if d.any (fun kv => kv.1 == k) then
    d.map (fun kv => if kv.1 == k then (k, v) else kv)
  else d ++ [(k, v)]

/-- Observable outcome of a `scrape_medex_brands_full` run: the in-memory
`all_data` dict and the number of HTTP fetches issued (one per listing
page via `extract_links_from_page`, one per medicine link via
`scrape_medicine_details`). -/
structure RunCounters where
  data : List (Str × MedData)
  fetches : Nat
deriving DecidableEq

/-- Inner loop of `scrape_medex_brands_full` (`scraper.py`, lines
385-399): one `scrape_medicine_details` fetch per link, each result
stored under its URL. -/
def processLinks (details : Str → MedData) (acc : RunCounters) (links : List Str) :
    RunCounters :=
  links.foldl (fun a link => ⟨dictInsert a.data link (details link), a.fetches + 1⟩) acc

/-- `end_page` computation of `scrape_medex_brands_full` (lines 363-367). -/
def scrape_end_page (total_pages : Nat) (max_pages : Option Nat) (start_page : Nat) : Nat :=
  match max_pages with
  | some m => if 0 < m then min (start_page + m - 1) total_pages else total_pages
  | none => total_pages

/-- `range(start_page, end_page + 1)` of line 370. -/
def scrape_pages (total_pages : Nat) (max_pages : Option Nat) (start_page : Nat) : List Nat :=
  List.range' start_page (scrape_end_page total_pages max_pages start_page + 1 - start_page)

/-- Body of the page loop (lines 370-402): fetch the listing page,
extract its links (one fetch), and if any links were found process each
(one fetch per link); with no links the loop continues to the next
page. -/
def pageStep (site : Nat → List Str) (details : Str → MedData)
    (acc : RunCounters) (page_num : Nat) : RunCounters :=
  let links := site page_num
  let acc1 : RunCounters := ⟨acc.data, acc.fetches + 1⟩
  if links.isEmpty then acc1 else processLinks details acc1 links

/-- `scrape_medex_brands_full` (`scraper.py`, lines 354-405). The
`checkpoint` parameter is the content of the persisted data file
(`medex_brands_data.json`) left by a previous run: the source never reads
that file — `all_data` starts as the empty dict (line 357) and the file
is only overwritten (lines 395-396) — so the parameter is unused.
`total_pages` is the result of `get_total_pages`; `site` gives, per page
number, the link list `extract_links_from_page` returns for that page;
`details` gives the record `scrape_medicine_details` returns per link. -/
def scrape_medex_brands_full (checkpoint : List (Str × MedData)) (total_pages : Nat)
    (site : Nat → List Str) (details : Str → MedData)
    (max_pages : Option Nat) (start_page : Nat) : RunCounters :=
  (scrape_pages total_pages max_pages start_page).foldl (pageStep site details) ⟨[], 0⟩

/-- Python `max` over a non-empty list (`max(page_links)`, line 328). -/
def pyMax : List Nat → Nat
  | [] => 0
  | h :: t => t.foldl Nat.max h

/-- `get_total_pages` (`scraper.py`, lines 298-334). `paginationLast` is
`some n` iff the `.pagination li` selector matched and
`int(pagination[-2].text.strip())` parsed to `n` (the inner bare
`except: pass` collapses every failure of approach 1 into `none`);
`pageLinkNums` are the numbers captured from `page=` hrefs by approach 2;
`exc` models an exception anywhere in the body, caught at line 332. Both
fallthrough paths return the hardcoded 82. -/
def get_total_pages (paginationLast : Option Nat) (pageLinkNums : List Nat)
    (exc : Bool) : Nat :=
  if exc then 82
  else
    match paginationLast with
    | some n => n
    | none =>
        match pageLinkNums with
        | [] => 82
        | h :: t => pyMax (h :: t)

/-- The hrefs available to each link-extraction method of
`extract_links_from_page` (`scraper.py`, lines 73-161): hrefs of all
anchors (method 1), hrefs of anchors inside `tr` rows (method 2), hrefs
of anchors inside `div[class*="data"]` (method 3), and the captures of
the regex `href=['"]?([^'" >]+/brands/[^'" >]+)` (method 4, line 135);
by that pattern every capture contains `/brands/` and no quote
character, so the source's `replace` cleanup on them is a no-op. -/
structure ListingPage where
  allHrefs : List Str
  rowHrefs : List Str
  dataDivHrefs : List Str
  regexUrls : List Str

/-- The `/brands/` marker every extracted link must contain. -/
def brandsMarker : Str := chars "/brands/"

/-- The base URL prepended to relative hrefs (lines 100, 113, 126, 143). -/
def medexBase : Str := chars "https://medex.com.bd"

/-- The `http` marker of the `href.startswith('http')` checks. -/
def httpMarker : Str := chars "http"

/-- Lines 97-100 (and the identical blocks of methods 2-4): absolute
hrefs pass through, others get the medex base prepended. -/
def toFullUrl (href : Str) : Str :=
  if httpMarker <+: href then href else medexBase ++ href

/-- Dedup-append of one URL (lines 101-102 and the identical blocks). -/
def addLink (links : List Str) (url : Str) : List Str :=
  if toFullUrl url ∈ links then links else links ++ [toFullUrl url]

/-- One step of methods 1-3: only hrefs containing `/brands/` are
considered (lines 94, 107, 120). -/
def addBrandLink (links : List Str) (href : Str) : List Str :=
  if brandsMarker <:+: href then addLink links href else links

/-- Regex fallback of `extract_links_from_page` (lines 130-145): runs
only when the selector methods found nothing. -/
def extract_links_regex_stage (p : ListingPage) (links : List Str) : List Str :=
  if links.isEmpty then p.regexUrls.foldl addLink links else links

/-- `extract_links_from_page` (`scraper.py`, lines 73-161): methods 1-3
accumulate deduplicated absolute `/brands/` links, the regex fallback
fires only when they found none, and `exc` models an exception anywhere
in the body (caught at line 159, returning `[]`). -/
def extract_links_from_page (p : ListingPage) (exc : Bool) : List Str :=
  if exc then []
  else
    extract_links_regex_stage p
      (p.dataDivHrefs.foldl addBrandLink
        (p.rowHrefs.foldl addBrandLink
          (p.allHrefs.foldl addBrandLink [])))

/-- A well-formed extracted link: absolute and pointing at a brand page. -/
def goodLink (u : Str) : Prop := (httpMarker <+: u) ∧ (brandsMarker <:+: u)

/-- Invariant maintained by the link accumulator of
`extract_links_from_page`: no duplicates and every entry well-formed. -/
def linksInvariant (links : List Str) : Prop :=
  links.Nodup ∧ ∀ u ∈ links, goodLink u

/-- Single-session invariant of `BrowserManager`: it owns at most one
live browser session, and none before the driver is first created. -/
def sessionInvariant (st : BrowserState) : Prop :=
  st.live ≤ 1 ∧ (st.driver = none → st.live = 0)

/-- A 507-character HTTP 200 body that contains the keyword `captcha`. -/
def blockedBody : Str := chars "captcha" ++ List.replicate 500 'a'

/-- An HTTP 200 response whose long body trips the keyword check. -/
def blockedResp : HttpResponse := ⟨200, blockedBody⟩

/-- A browser fault (Chrome died mid-fetch) for the teardown claims. -/
def faultyStep : BrowserStep := .raiseExc (.webDriverException (chars "chrome not reachable"))

/-- Concrete checkpoint, site map and details map for the re-run claims:
one listing page with one link, whose record is already persisted. -/
def cpUrl : Str := chars "https://medex.com.bd/brands/779/sample"

/-- Checkpoint file already holding a record for `cpUrl`. -/
def cpCheckpoint : List (Str × MedData) := [(cpUrl, [(chars "name", chars "Sample")])]

/-- Site with a single listing page containing the single link `cpUrl`. -/
def cpSite : Nat → List Str := fun page_num => if page_num = 1 then [cpUrl] else []

/-- Details fetched for any link of the concrete site. -/
def cpDetails : Str → MedData := fun _ => [(chars "name", chars "Sample")]

/-- A concrete listing page exercising duplicate, absolute, relative and
non-brand hrefs. -/
def samplePage : ListingPage where
  allHrefs := [chars "/brands/779/sample", chars "https://medex.com.bd/brands/21/acemetacin",
    chars "/brands/779/sample", chars "/about"]
  rowHrefs := [chars "/brands/779/sample"]
  dataDivHrefs := []
  regexUrls := [chars "/brands/99/x"]

/-- C1: a body containing any configured anti-bot keyword
(case-insensitively) is never returned as the light-path result, whatever
the status code or body length: the light plausibility check fails and
`fetch_webpage` escalates to `fetch_page_with_browser`, the render
strategy. -/
theorem fetch_webpage_escalates_on_keyword (st : BrowserState) (url : Str)
    (resp : HttpResponse) (ini : InitOutcome) (step : BrowserStep)
    (h : containsAntiBotIndicator resp.text = true) :
    lightPathSuccess resp = false ∧
    fetch_webpage st url (.ok resp) ini step =
      .ok (fetch_page_with_browser st url ini step) := by
  have hl : lightPathSuccess resp = false := by
    simp [lightPathSuccess, h]
  exact ⟨hl, by simp [fetch_webpage, fetch_webpage_try, hl]⟩

/-- Witness for C1: a concrete HTTP 200 response whose 507-character body
contains `captcha` escalates to the browser. -/
theorem fetch_webpage_escalates_on_keyword_witness :
    containsAntiBotIndicator blockedResp.text = true ∧
    blockedResp.status_code = 200 ∧ 500 < blockedResp.text.length ∧
    (lightPathSuccess blockedResp = false ∧
      fetch_webpage ⟨none, 0⟩ cpUrl (.ok blockedResp) (.okInit 0)
          (.pageSource (chars "<html></html>")) =
        .ok (fetch_page_with_browser ⟨none, 0⟩ cpUrl (.okInit 0)
          (.pageSource (chars "<html></html>")))) :=
  ⟨by decide, rfl, by decide,
    fetch_webpage_escalates_on_keyword ⟨none, 0⟩ cpUrl blockedResp (.okInit 0)
      (.pageSource (chars "<html></html>")) (by decide)⟩

/-- C2: `fetch_webpage` never lets an exception past its boundary — for
every requests outcome, browser-initialization outcome and browser step
(transport error, browser error, timeout, or any other exception), the
call evaluates to an `ok` page result for the URL, never to an escaping
exception. -/
theorem fetch_webpage_never_raises (st : BrowserState) (url : Str)
    (out : FetchOutcome) (ini : InitOutcome) (step : BrowserStep) :
    ∃ r, fetch_webpage st url out ini step = Except.ok r := by
  cases out with
  | ok resp =>
      cases hl : lightPathSuccess resp with
      | true =>
          exact ⟨(st, ⟨url, resp.text⟩), by simp [fetch_webpage, fetch_webpage_try, hl]⟩
      | false =>
          exact ⟨fetch_page_with_browser st url ini step,
            by simp [fetch_webpage, fetch_webpage_try, hl]⟩
  | raise e =>
      cases e with
      | requestException m => exact ⟨fetch_page_with_browser st url ini step, rfl⟩
      | timeoutException m => exact ⟨_, rfl⟩
      | webDriverException m => exact ⟨_, rfl⟩
      | otherException m => exact ⟨_, rfl⟩

/-- C3: every `CaptchaSolver.solve_*` method returns `None` when no
provider is configured, and likewise returns `None` when the configured
provider raises during solving; no call propagates an exception (each
method is total, the error branch of every provider call mapping to
`None`). -/
theorem captcha_solver_never_raises (cs : CaptchaSolver)
    (image_data image_url : Option Str) (site_key page_url : Str)
    (call : ProviderCall) (err : Str) :
    (cs.solver = none →
      solve_image_captcha cs image_data image_url call = none ∧
      solve_recaptcha_v2 cs site_key page_url call = none ∧
      solve_hcaptcha cs site_key page_url call = none) ∧
    (solve_image_captcha cs image_data image_url (.error err) = none ∧
      solve_recaptcha_v2 cs site_key page_url (.error err) = none ∧
      solve_hcaptcha cs site_key page_url (.error err) = none) := by
  constructor
  · intro h
    simp [solve_image_captcha, solve_recaptcha_v2, solve_hcaptcha, h]
  · cases hs : cs.solver with
    | none => simp [solve_image_captcha, solve_recaptcha_v2, solve_hcaptcha, hs]
    | some c => simp [solve_image_captcha, solve_recaptcha_v2, solve_hcaptcha, hs]

/-- Witness for C3: the unconfigured solver returns `None` from all three
methods on a concrete challenge. -/
theorem captcha_solver_never_raises_witness :
    (CaptchaSolver.mk none).solver = none ∧
    (solve_image_captcha ⟨none⟩ none (some (chars "https://x/c.png"))
        (.ok (some (chars "tok"))) = none ∧
      solve_recaptcha_v2 ⟨none⟩ (chars "sitekey") cpUrl (.ok (some (chars "tok"))) = none ∧
      solve_hcaptcha ⟨none⟩ (chars "sitekey") cpUrl (.ok (some (chars "tok"))) = none) :=
  ⟨rfl, (captcha_solver_never_raises ⟨none⟩ none (some (chars "https://x/c.png"))
      (chars "sitekey") cpUrl (.ok (some (chars "tok"))) (chars "boom")).1 rfl⟩

/-- C4: `_detect_captcha_type` classifies with first-match-wins in the
fixed significance order reCAPTCHA-v2, hCaptcha, image-captcha
heuristics, security-interstitial heuristics; `none` is returned exactly
when no category matches, and a snapshot matching an earlier category is
never classified as a later one. -/
theorem detect_captcha_type_order (p : PageSnapshot) :
    (0 < p.gRecaptchaCount → detect_captcha_type p = some .recaptcha_v2) ∧
    (p.gRecaptchaCount = 0 → 0 < p.hCaptchaCount →
      detect_captcha_type p = some .hcaptcha) ∧
    (p.gRecaptchaCount = 0 → p.hCaptchaCount = 0 →
      (0 < p.imgIdCaptchaCount ∨ 0 < p.imgSrcCaptchaCount ∨ 0 < p.inputIdCaptchaCount) →
      detect_captcha_type p = some .image_captcha) ∧
    (p.gRecaptchaCount = 0 → p.hCaptchaCount = 0 → p.imgIdCaptchaCount = 0 →
      p.imgSrcCaptchaCount = 0 → p.inputIdCaptchaCount = 0 →
      (0 < p.securityCheckDivCount ∨ 0 < p.securityHeadingCount ∨
        0 < p.securityTitleCount ∨ 0 < p.checkingBrowserTextCount) →
      detect_captcha_type p = some .security_challenge) ∧
    (p.gRecaptchaCount = 0 → p.hCaptchaCount = 0 → p.imgIdCaptchaCount = 0 →
      p.imgSrcCaptchaCount = 0 → p.inputIdCaptchaCount = 0 →
      p.securityCheckDivCount = 0 → p.securityHeadingCount = 0 →
      p.securityTitleCount = 0 → p.checkingBrowserTextCount = 0 →
      detect_captcha_type p = none) := by
  refine ⟨?_, ?_, ?_, ?_, ?_⟩
  · intro h
    simp [detect_captcha_type, detect_captcha_type_state, h]
  · intro h1 h2
    simp [detect_captcha_type, detect_captcha_type_state, h1, h2]
  · intro h1 h2 h3
    rcases h3 with h3 | h3 | h3 <;>
      simp [detect_captcha_type, detect_captcha_type_state, h1, h2, h3]
  · intro h1 h2 h3 h4 h5 h6
    rcases h6 with h6 | h6 | h6 | h6 <;>
      simp [detect_captcha_type, detect_captcha_type_state, h1, h2, h3, h4, h5, h6]
  · intro h1 h2 h3 h4 h5 h6 h7 h8 h9
    simp [detect_captcha_type, detect_captcha_type_state,
      h1, h2, h3, h4, h5, h6, h7, h8, h9]

/-- Witness for C4: a snapshot matching every category at once classifies
as the first (reCAPTCHA v2). -/
theorem detect_captcha_type_order_witness :
    0 < (PageSnapshot.mk 1 1 1 1 1 1 1 1 1).gRecaptchaCount ∧
    detect_captcha_type ⟨1, 1, 1, 1, 1, 1, 1, 1, 1⟩ = some CaptchaType.recaptcha_v2 :=
  ⟨by decide, (detect_captcha_type_order ⟨1, 1, 1, 1, 1, 1, 1, 1, 1⟩).1 (by decide)⟩

/-- C5: classification is side-effect-free and deterministic — the
state-threaded detector returns the snapshot unchanged, and running it a
second time on the returned snapshot yields the identical descriptor. -/
theorem detect_captcha_type_pure (p : PageSnapshot) :
    (detect_captcha_type_state p).2 = p ∧
    (detect_captcha_type_state (detect_captcha_type_state p).2).1 =
      (detect_captcha_type_state p).1 := by
  have h2 : (detect_captcha_type_state p).2 = p := by
    unfold detect_captcha_type_state
    split_ifs <;> rfl
  exact ⟨h2, by rw [h2]⟩

/-- Fetch count of the per-link loop: one details fetch per link. -/
theorem processLinks_fetches (details : Str → MedData) (links : List Str) :
    ∀ acc : RunCounters,
      (processLinks details acc links).fetches = acc.fetches + links.length := by
  induction links with
  | nil => intro acc; rfl
  | cons l ls ih =>
      intro acc
      have hstep : processLinks details acc (l :: ls) =
          processLinks details ⟨dictInsert acc.data l (details l), acc.fetches + 1⟩ ls := rfl
      rw [hstep, ih]
      simp
      omega

/-- Fetch count of one page iteration: the listing-page fetch plus one
fetch per link found on it. -/
theorem pageStep_fetches (site : Nat → List Str) (details : Str → MedData)
    (acc : RunCounters) (page_num : Nat) :
    (pageStep site details acc page_num).fetches =
      acc.fetches + (1 + (site page_num).length) := by
  unfold pageStep
  cases hs : site page_num with
  | nil => simp
  | cons l ls => simp [processLinks_fetches]; omega

/-- Fetch count of the whole page loop. -/
theorem foldl_pageStep_fetches (site : Nat → List Str) (details : Str → MedData)
    (pages : List Nat) :
    ∀ acc : RunCounters,
      ((pages.foldl (pageStep site details) acc).fetches =
        acc.fetches + (pages.map (fun p => 1 + (site p).length)).sum) := by
  induction pages with
  | nil => intro acc; simp
  | cons p ps ih =>
      intro acc
      rw [List.foldl_cons, ih, pageStep_fetches]
      simp
      omega

/-- C6 counterexample: with the persisted checkpoint already holding a
record for the only URL of the batch, a re-run still performs two fetches
(the listing page and the medicine link), not zero; the engine has no
skip predicate. -/
theorem scrape_rerun_not_idempotent_counterexample :
    (scrape_medex_brands_full cpCheckpoint 1 cpSite cpDetails none 1).fetches = 2 ∧
    ¬ (scrape_medex_brands_full cpCheckpoint 1 cpSite cpDetails none 1).fetches = 0 := by
  constructor <;> decide

/-- C6 amended: `scrape_medex_brands_full` maintains no checkpoint skip
predicate — it never reads the persisted data file, so runs are
checkpoint-independent — and every run re-fetches each listing page once
plus each extracted link once, regardless of prior Success records. -/
theorem scrape_rerun_refetches_everything (cp cp' : List (Str × MedData))
    (total_pages : Nat) (site : Nat → List Str) (details : Str → MedData)
    (max_pages : Option Nat) (start_page : Nat) :
    scrape_medex_brands_full cp total_pages site details max_pages start_page =
      scrape_medex_brands_full cp' total_pages site details max_pages start_page ∧
    (scrape_medex_brands_full cp total_pages site details max_pages start_page).fetches =
      ((scrape_pages total_pages max_pages start_page).map
        (fun p => 1 + (site p).length)).sum := by
  constructor
  · rfl
  · unfold scrape_medex_brands_full
    rw [foldl_pageStep_fetches]
    simp

/-- C7 counterexample: `fetch_webpage` has no attempt-budget parameter,
and a request whose light fetch is immediately classified as blocked
(HTTP 200, long body, `captcha` keyword) enters the render strategy
instead of terminating as blocked without rendering. -/
theorem no_budget_blocked_enters_render_counterexample :
    Strategy.RENDER ∈ fetch_webpage_strategies (.ok blockedResp) ∧
    fetch_webpage_strategies (.ok blockedResp) = [Strategy.LIGHT, Strategy.RENDER] ∧
    fetch_webpage ⟨none, 0⟩ cpUrl (.ok blockedResp) (.okInit 0)
        (.pageSource (chars "<html></html>")) =
      .ok (fetch_page_with_browser ⟨none, 0⟩ cpUrl (.okInit 0)
        (.pageSource (chars "<html></html>"))) := by
  refine ⟨?_, ?_, ?_⟩
  · decide
  · decide
  · have hl : lightPathSuccess blockedResp = false := by decide
    simp [fetch_webpage, fetch_webpage_try, hl]

/-- C7 amended: `fetch_webpage` takes no attempt budget; the number of
strategy transitions per request is bounded by the fixed constant 2 (one
LIGHT attempt, at most one RENDER attempt), and a light fetch classified
as blocked always escalates to RENDER rather than terminating without
rendering. -/
theorem fetch_webpage_strategy_bounds (out : FetchOutcome) :
    (fetch_webpage_strategies out).length ≤ 2 ∧
    (∀ resp, out = .ok resp → lightPathSuccess resp = false →
      fetch_webpage_strategies out = [Strategy.LIGHT, Strategy.RENDER]) := by
  constructor
  · cases out with
    | ok resp =>
        cases hl : lightPathSuccess resp <;>
          simp [fetch_webpage_strategies, hl]
    | raise e =>
        cases e <;> simp [fetch_webpage_strategies]
  · rintro resp rfl hl
    simp [fetch_webpage_strategies, hl]

/-- Witness for C7 (amended): the concrete blocked response escalates to
exactly one render attempt. -/
theorem fetch_webpage_strategy_bounds_witness :
    lightPathSuccess blockedResp = false ∧
    fetch_webpage_strategies (.ok blockedResp) = [Strategy.LIGHT, Strategy.RENDER] :=
  ⟨by decide,
    (fetch_webpage_strategy_bounds (.ok blockedResp)).2 blockedResp rfl (by decide)⟩

/-- C8: `get_total_pages` falls back to the hardcoded 82 in every case
where the page count cannot be determined — when any exception occurs,
and when neither a parseable pagination last-page number nor any `page=`
link is found. -/
theorem get_total_pages_fallback (paginationLast : Option Nat) (pageLinkNums : List Nat) :
    get_total_pages paginationLast pageLinkNums true = 82 ∧
    (paginationLast = none → pageLinkNums = [] →
      get_total_pages paginationLast pageLinkNums false = 82) := by
  constructor
  · rfl
  · rintro rfl rfl
    rfl

/-- Witness for C8: the no-pagination, no-page-links, no-exception case
concretely returns 82. -/
theorem get_total_pages_fallback_witness :
    get_total_pages none [] false = 82 :=
  (get_total_pages_fallback none []).2 rfl rfl

/-- The handler block of `fetch_page_with_browser` never touches the
browser state. -/
theorem browser_fetch_result_state (st : BrowserState) (url : Str) (step : BrowserStep) :
    (browser_fetch_result st url step).1 = st := by
  cases step with
  | pageSource c => rfl
  | raiseExc e => cases e <;> rfl

/-- C9 counterexample: with a live session open, a WebDriver fault during
a fetch leaves the session open — the error handlers (lines 215-220)
return diagnostics without calling `close_browser`, so a live session
remains after the fault. -/
theorem browser_fault_keeps_session_counterexample :
    (fetch_page_with_browser ⟨some 0, 1⟩ cpUrl (.okInit 5) faultyStep).1.live = 1 ∧
    ¬ (fetch_page_with_browser ⟨some 0, 1⟩ cpUrl (.okInit 5) faultyStep).1.live = 0 := by
  constructor <;> decide

/-- C9 amended: `fetch_page_with_browser` owns at most one live session —
it initializes a browser only when no driver handle is stored and
preserves the single-session invariant — but on an unrecoverable fault it
does not tear the session down: whenever a driver exists, the browser
state (driver handle and live-session count) is left entirely unchanged,
fault or not. -/
theorem browser_session_ownership (st : BrowserState) (url : Str)
    (ini : InitOutcome) (step : BrowserStep) :
    (sessionInvariant st → sessionInvariant (fetch_page_with_browser st url ini step).1) ∧
    (∀ s, st.driver = some s → (fetch_page_with_browser st url ini step).1 = st) := by
  constructor
  · intro hinv
    cases hd : st.driver with
    | some s =>
        rw [show (fetch_page_with_browser st url ini step).1 = st by
          simp [fetch_page_with_browser, hd, browser_fetch_result_state]]
        exact hinv
    | none =>
        have h0 : st.live = 0 := hinv.2 hd
        cases ini with
        | okInit s =>
            simp [fetch_page_with_browser, hd, init_browser, browser_fetch_result_state,
              sessionInvariant, h0]
        | failBeforeDriver =>
            simpa [fetch_page_with_browser, hd, init_browser] using hinv
        | failAfterDriver s =>
            simp [fetch_page_with_browser, hd, init_browser, sessionInvariant, h0]
  · intro s hs
    simp [fetch_page_with_browser, hs, browser_fetch_result_state]

/-- Witness for C9 (amended): a manager with one live session keeps
exactly that session across a successful fetch. -/
theorem browser_session_ownership_witness :
    sessionInvariant ⟨some 3, 1⟩ ∧
    sessionInvariant (fetch_page_with_browser ⟨some 3, 1⟩ cpUrl (.okInit 4)
      (.pageSource (chars "ok"))).1 ∧
    (fetch_page_with_browser ⟨some 3, 1⟩ cpUrl (.okInit 4)
      (.pageSource (chars "ok"))).1 = ⟨some 3, 1⟩ :=
  have hinv : sessionInvariant ⟨some 3, 1⟩ :=
    ⟨Nat.le_refl 1, fun h => Option.noConfusion h⟩
  ⟨hinv,
    (browser_session_ownership ⟨some 3, 1⟩ cpUrl (.okInit 4)
      (.pageSource (chars "ok"))).1 hinv,
    (browser_session_ownership ⟨some 3, 1⟩ cpUrl (.okInit 4)
      (.pageSource (chars "ok"))).2 3 rfl⟩

/-- A substring of a list is a substring of any left-extension of it. -/
theorem sub_of_append_right {x l₂ : List Char} (l₁ : List Char) (h : x <:+: l₂) :
    x <:+: l₁ ++ l₂ := by
  obtain ⟨s, t, rfl⟩ := h
  exact ⟨l₁ ++ s, t, by simp⟩

/-- A leading segment of a list also leads any right-extension of it. -/
theorem head_of_append {x l₁ : List Char} (l₂ : List Char) (h : x <+: l₁) :
    x <+: l₁ ++ l₂ := by
  obtain ⟨t, rfl⟩ := h
  exact ⟨t ++ l₂, by simp⟩

/-- Completing an href that contains `/brands/` yields a well-formed
absolute brand link. -/
theorem goodLink_toFullUrl {href : Str} (h : brandsMarker <:+: href) :
    goodLink (toFullUrl href) := by
  unfold toFullUrl
  split_ifs with hp
  · exact ⟨hp, h⟩
  · exact ⟨head_of_append href (by decide), sub_of_append_right medexBase h⟩

/-- The dedup-append step preserves the extraction invariant when the
incoming href contains `/brands/`. -/
theorem addLink_invariant {links : List Str} {url : Str}
    (hl : linksInvariant links) (hu : brandsMarker <:+: url) :
    linksInvariant (addLink links url) := by
  unfold addLink
  split_ifs with hmem
  · exact hl
  · constructor
    · refine List.Nodup.append hl.1 (List.nodup_singleton _) ?_
      intro x hx hx'
      rw [List.mem_singleton] at hx'
      subst hx'
      exact hmem hx
    · intro u hu'
      rcases List.mem_append.mp hu' with h | h
      · exact hl.2 u h
      · rw [List.mem_singleton] at h
        subst h
        exact goodLink_toFullUrl hu

/-- The filtered step of methods 1-3 preserves the invariant for any
href. -/
theorem addBrandLink_invariant {links : List Str} (href : Str)
    (hl : linksInvariant links) : linksInvariant (addBrandLink links href) := by
  unfold addBrandLink
  split_ifs with hb
  · exact addLink_invariant hl hb
  · exact hl

/-- Folding any href list through the filtered step preserves the
invariant. -/
theorem foldl_addBrandLink_invariant (hrefs : List Str) :
    ∀ links, linksInvariant links → linksInvariant (hrefs.foldl addBrandLink links) := by
  induction hrefs with
  | nil => intro links h; exact h
  | cons a as ih => intro links h; exact ih _ (addBrandLink_invariant a h)

/-- Folding regex captures (each containing `/brands/`) through the
unfiltered step preserves the invariant. -/
theorem foldl_addLink_invariant (urls : List Str) :
    (∀ u ∈ urls, brandsMarker <:+: u) →
    ∀ links, linksInvariant links → linksInvariant (urls.foldl addLink links) := by
  induction urls with
  | nil => intro _ links h; exact h
  | cons a as ih =>
      intro hurls links h
      exact ih (fun u hu => hurls u (List.mem_cons_of_mem _ hu)) _
        (addLink_invariant h (hurls a (List.mem_cons_self a as)))

/-- C10: `extract_links_from_page` returns a duplicate-free list whose
entries are absolute URLs starting with `http` and containing `/brands/`
(relative hrefs being completed with the medex base), and any exception
yields the empty list; the regex hypothesis records what the capture
pattern of line 135 guarantees about method 4's matches. -/
theorem extract_links_properties (p : ListingPage) (exc : Bool)
    (hregex : ∀ u ∈ p.regexUrls, brandsMarker <:+: u) :
    extract_links_from_page p true = [] ∧
    (extract_links_from_page p exc).Nodup ∧
    (∀ u ∈ extract_links_from_page p exc, (httpMarker <+: u) ∧ (brandsMarker <:+: u)) ∧
    (∀ href : Str, ¬ (httpMarker <+: href) → toFullUrl href = medexBase ++ href) := by
  have hbase : linksInvariant (extract_links_from_page p exc) := by
    cases exc with
    | true =>
        have hnil : extract_links_from_page p true = [] := rfl
        rw [hnil]
        exact ⟨List.nodup_nil, by simp⟩
    | false =>
        have h1 := foldl_addBrandLink_invariant p.allHrefs [] ⟨List.nodup_nil, by simp⟩
        have h2 := foldl_addBrandLink_invariant p.rowHrefs _ h1
        have h3 := foldl_addBrandLink_invariant p.dataDivHrefs _ h2
        have hred : extract_links_from_page p false =
            extract_links_regex_stage p
              (p.dataDivHrefs.foldl addBrandLink
                (p.rowHrefs.foldl addBrandLink (p.allHrefs.foldl addBrandLink []))) := rfl
        rw [hred]
        unfold extract_links_regex_stage
        split_ifs with he
        · exact foldl_addLink_invariant p.regexUrls hregex _ h3
        · exact h3
  refine ⟨rfl, hbase.1, fun u hu => hbase.2 u hu, ?_⟩
  intro href hnp
  unfold toFullUrl
  rw [if_neg hnp]

/-- Witness for C10: the concrete sample page (with duplicate, absolute,
relative and non-brand hrefs) yields a deduplicated list of well-formed
brand links, and the exception path yields the empty list. -/
theorem extract_links_properties_witness :
    (∀ u ∈ samplePage.regexUrls, brandsMarker <:+: u) ∧
    extract_links_from_page samplePage true = [] ∧
    (extract_links_from_page samplePage false).Nodup ∧
    (∀ u ∈ extract_links_from_page samplePage false,
      (httpMarker <+: u) ∧ (brandsMarker <:+: u)) :=
  ⟨by decide,
    (extract_links_properties samplePage false (by decide)).1,
    (extract_links_properties samplePage false (by decide)).2.1,
    (extract_links_properties samplePage false (by decide)).2.2.1⟩
